import Mathlib

/-!
Shallow embedding of the `alert_database_server` repository:
`alertdb/storage.py` (the backend abstraction and the two concrete
backends), `alertdb/server.py` (the HTTP routes) and
`alertdb/bin/alertdb.py` (the command-line entry point), together with
theorems settling the specification claims.
-/

namespace AlertDB

/-- Raw artifact contents: an immutable sequence of bytes (each a value
below 256, though nothing here depends on that). -/
abbrev Bytes := List Nat

/-- Byte rendering of an ASCII string literal, used for fixed bodies such
as the health check's `b"OK"` and the test payloads. -/
def strBytes (s : String) : Bytes := s.data.map Char.toNat

/-- Substrate-level failures other than the substrate's own "missing
artifact" signal: `OSError`s from `open` other than `FileNotFoundError`,
and boto3 client errors other than `NoSuchKey`. -/
inductive SubstrateErr where
  | permissionDenied
  | ioFailure
  | networkTimeout
  | accessDenied
  | other (msg : String)
deriving DecidableEq

/-- What the filesystem holds at a given path: a readable regular file,
nothing (so `open` raises `FileNotFoundError`), or something whose `open`
or `read` raises a different `OSError`. -/
inductive FsEntry where
  | file (contents : Bytes)
  | absent
  | ioError (e : SubstrateErr)
deriving DecidableEq

/-- The filesystem substrate, as a total map from path strings to what
`open(path, "rb")` followed by `read()` observes there. -/
abbrev FileSystem := String → FsEntry

/-- Outcome of one `get_alert`/`get_schema` call: returned bytes, a raised
`NotFoundError`, or a propagated (uncaught) substrate exception. -/
inductive LookupResult where
  | ok (b : Bytes)
  | notFound
  | substrateError (e : SubstrateErr)
deriving DecidableEq, BEq

/-- First character of a string, if any; embeds `s.startswith("/")`. -/
def firstChar (s : String) : Option Char := s.data.head?

/-- Last character of a character list, if any. -/
def lastCharOf : List Char → Option Char
  | [] => none
  | [c] => some c
  | _ :: c :: rest => lastCharOf (c :: rest)

/-- Last character of a string, if any; embeds `s.endswith("/")`. -/
def lastChar (s : String) : Option Char := lastCharOf s.data

/-- Whether a path string starts with the POSIX separator. -/
def strStartsWithSlash (s : String) : Bool := firstChar s == some '/'

/-- Whether a path string ends with the POSIX separator. -/
def strEndsWithSlash (s : String) : Bool := lastChar s == some '/'

/-- One step of `posixpath.join` (what `os.path.join` does on POSIX for
each additional component `b`): an absolute `b` discards everything
accumulated so far; otherwise a separator is inserted unless the
accumulated path is empty or already ends with one. -/
def posixJoin2 (a b : String) : String :=
  if strStartsWithSlash b then b
  else if a = "" ∨ strEndsWithSlash a then a ++ b
  else a ++ "/" ++ b

/-- `os.path.join(a, b, c)` on POSIX: left fold of the two-argument join. -/
def posixJoin3 (a b c : String) : String := posixJoin2 (posixJoin2 a b) c

/-- `FileBackend.__init__`: the backend holds only the root directory
fixed at construction. -/
structure FileBackend where
  root_dir : String
deriving DecidableEq

/-- The path `FileBackend.get_alert` opens:
`os.path.join(self.root_dir, "alerts", alert_id)`. -/
def filePathAlert (root_dir alert_id : String) : String :=
  posixJoin3 root_dir "alerts" alert_id

/-- The path `FileBackend.get_schema` opens:
`os.path.join(self.root_dir, "schemas", schema_id)`. -/
def filePathSchema (root_dir schema_id : String) : String :=
  posixJoin3 root_dir "schemas" schema_id

/-- `FileBackend.get_alert` as a call on the full state: opens the joined
path in binary mode and reads it fully; `except FileNotFoundError` becomes
`NotFoundError`; any other `OSError` is not caught. The returned pair of
states embeds that a Python method call may in principle rebind `self`
attributes and write to disk; this body does neither. -/
def FileBackend.get_alert_call (be : FileBackend) (fs : FileSystem)
    (alert_id : String) : LookupResult × FileBackend × FileSystem :=
  match fs (filePathAlert be.root_dir alert_id) with
  | .file contents => (.ok contents, be, fs)
  | .absent => (.notFound, be, fs)
  | .ioError e => (.substrateError e, be, fs)

/-- Result component of `FileBackend.get_alert`. -/
def FileBackend.get_alert (be : FileBackend) (fs : FileSystem)
    (alert_id : String) : LookupResult :=
  (be.get_alert_call fs alert_id).1

/-- `FileBackend.get_schema` as a call on the full state; identical to
`get_alert` except for the `schemas` path component. -/
def FileBackend.get_schema_call (be : FileBackend) (fs : FileSystem)
    (schema_id : String) : LookupResult × FileBackend × FileSystem :=
  match fs (filePathSchema be.root_dir schema_id) with
  | .file contents => (.ok contents, be, fs)
  | .absent => (.notFound, be, fs)
  | .ioError e => (.substrateError e, be, fs)

/-- Result component of `FileBackend.get_schema`. -/
def FileBackend.get_schema (be : FileBackend) (fs : FileSystem)
    (schema_id : String) : LookupResult :=
  (be.get_schema_call fs schema_id).1

/-- What the object store holds in a bucket at a key, as observed by one
`get_object` call: an object whose body reads fully, the `NoSuchKey`
client error, or any other client/transport error. -/
inductive ObjEntry where
  | object (contents : Bytes)
  | noSuchKey
  | storeError (e : SubstrateErr)
deriving DecidableEq

/-- The object-store substrate: bucket name, then key, to what a single
blocking `get_object` observes. -/
abbrev ObjectStore := String → String → ObjEntry

/-- `USDFObjectStorageBackend.__init__`: a boto3 S3 client built from the
endpoint URL, plus the two bucket names, all fixed at construction. -/
structure USDFObjectStorageBackend where
  endpoint_url : String
  packet_bucket : String
  schema_bucket : String
deriving DecidableEq

/-- The object key computed in `USDFObjectStorageBackend.get_alert`, the
f-string with a leading slash. -/
def alertObjectKey (alert_id : String) : String :=
  "/alert_archive/v1/alerts/" ++ alert_id ++ ".avro.gz"

/-- The object key computed in `USDFObjectStorageBackend.get_schema`, the
f-string with a leading slash. -/
def schemaObjectKey (schema_id : String) : String :=
  "/alert_archive/v1/schemas/" ++ schema_id ++ ".json"

/-- `USDFObjectStorageBackend.get_alert` as a call on the full state: one
`get_object` against the packet bucket at the computed key; `NoSuchKey`
becomes `NotFoundError`; every other client error is not caught. -/
def USDFObjectStorageBackend.get_alert_call (be : USDFObjectStorageBackend)
    (store : ObjectStore) (alert_id : String) :
    LookupResult × USDFObjectStorageBackend × ObjectStore :=
  match store be.packet_bucket (alertObjectKey alert_id) with
  | .object contents => (.ok contents, be, store)
  | .noSuchKey => (.notFound, be, store)
  | .storeError e => (.substrateError e, be, store)

/-- Result component of `USDFObjectStorageBackend.get_alert`. -/
def USDFObjectStorageBackend.get_alert (be : USDFObjectStorageBackend)
    (store : ObjectStore) (alert_id : String) : LookupResult :=
  (be.get_alert_call store alert_id).1

/-- `USDFObjectStorageBackend.get_schema` as a call on the full state: one
`get_object` against the schema bucket at the computed key; `NoSuchKey`
becomes `NotFoundError`; every other client error is not caught. -/
def USDFObjectStorageBackend.get_schema_call (be : USDFObjectStorageBackend)
    (store : ObjectStore) (schema_id : String) :
    LookupResult × USDFObjectStorageBackend × ObjectStore :=
  match store be.schema_bucket (schemaObjectKey schema_id) with
  | .object contents => (.ok contents, be, store)
  | .noSuchKey => (.notFound, be, store)
  | .storeError e => (.substrateError e, be, store)

/-- Result component of `USDFObjectStorageBackend.get_schema`. -/
def USDFObjectStorageBackend.get_schema (be : USDFObjectStorageBackend)
    (store : ObjectStore) (schema_id : String) : LookupResult :=
  (be.get_schema_call store schema_id).1

/-- `server.py`: the preferred Confluent Schema Registry content type,
used for schema responses. -/
def SCHEMA_CONTENT_TYPE : String := "application/vnd.schemaregistry.v1+json"

/-- `server.py`: the content type used for alert responses. -/
def ALERT_CONTENT_TYPE : String := "application/octet-stream"

/-- The backend abstraction as the serving layer sees it
(`AlertDatabaseBackend`): just the two lookup capabilities, the substrate
state already folded in. -/
structure BackendModel where
  get_alert : String → LookupResult
  get_schema : String → LookupResult

/-- Outcome of one FastAPI route handler: a `Response` with status, body
and declared media type; a raised `HTTPException` (rendered by FastAPI as
a JSON error body with that status); or an exception the handler did not
catch, propagating out of the serving layer. -/
inductive HandlerOutcome where
  | response (status : Nat) (body : Bytes) (mediaType : Option String)
  | httpException (status : Nat) (detail : String)
  | uncaught (e : SubstrateErr)
deriving DecidableEq

namespace Server

/-- The `/v1/health` handler from `create_server`: returns
`Response(content=b"OK")` (status 200, no media type set) and never
touches the backend it closes over. -/
def healthcheck (_backend : BackendModel) : HandlerOutcome :=
  HandlerOutcome.response 200 (strBytes "OK") none

/-- The `/v1/schemas/{schema_id}` handler: calls `backend.get_schema`,
turns `NotFoundError` into `HTTPException(404, "schema not found")`, and
wraps success in a `Response` with the schema content type. Any other
exception from the backend is not caught. -/
def get_schema (backend : BackendModel) (schema_id : String) : HandlerOutcome :=
  match backend.get_schema schema_id with
  | .ok b => .response 200 b (some SCHEMA_CONTENT_TYPE)
  | .notFound => .httpException 404 "schema not found"
  | .substrateError e => .uncaught e

/-- The `/v1/alerts/{alert_id}` handler: calls `backend.get_alert`, turns
`NotFoundError` into `HTTPException(404, "alert not found")`, and wraps
success in a `Response` with the alert content type. Any other exception
from the backend is not caught. -/
def get_alert (backend : BackendModel) (alert_id : String) : HandlerOutcome :=
  match backend.get_alert alert_id with
  | .ok b => .response 200 b (some ALERT_CONTENT_TYPE)
  | .notFound => .httpException 404 "alert not found"
  | .substrateError e => .uncaught e

end Server

/-- The argparse results of `bin/alertdb.py` that backend selection reads
(listen host/port and verbosity omitted: they do not influence it).
Defaults as declared: `backend="local-files"`, `local_file_root=None`,
`gcp_project=None`, `gcp_bucket_alerts="alert-packets"`,
`gcp_bucket_schemas="alert-schemas"`. -/
structure Args where
  backend : String
  local_file_root : Option String
  gcp_project : Option String
  gcp_bucket_alerts : Option String
  gcp_bucket_schemas : Option String
deriving DecidableEq

/-- The argparse defaults of `bin/alertdb.py`. -/
def defaultArgs : Args :=
  { backend := "local-files"
    local_file_root := none
    gcp_project := none
    gcp_bucket_alerts := some "alert-packets"
    gcp_bucket_schemas := some "alert-schemas" }

/-- The `choices` tuple of the `--backend` argument in `bin/alertdb.py`. -/
def backendChoices : List String := ["local-files", "google-cloud"]

/-- Startup failures of `main()`: argparse rejecting a `--backend` value
outside `choices`, a `parser.error` usage error, or the defensive
`AssertionError` in the final else branch. All abort before the server
starts. -/
inductive CliError where
  | invalidChoice (value : String)
  | usageError (msg : String)
  | assertionError (msg : String)
deriving DecidableEq

/-- The backend instance `main()` constructs. -/
inductive ConfiguredBackend where
  | file (be : FileBackend)
  | usdf (be : USDFObjectStorageBackend)
deriving DecidableEq

/-- Argparse validation of the `--backend` value against `choices`. -/
def parseBackendChoice (value : String) : Except CliError String :=
  if value ∈ backendChoices then .ok value else .error (.invalidChoice value)

/-- The backend-selection block of `main()`: `local-files` requires
`--local-file-root` and builds a `FileBackend`; `google-cloud` requires
`--gcp-project`, requires both bucket flags to be set, and builds a
`USDFObjectStorageBackend` passing `gcp_project` as the endpoint URL;
anything else hits the defensive `AssertionError`. Errors abort before
`create_server` runs. -/
def configureBackend (args : Args) : Except CliError ConfiguredBackend :=
  if args.backend = "local-files" then
    match args.local_file_root with
    | none =>
      .error (.usageError "--backend=local-files requires --local-file-root be set")
    | some root => .ok (.file { root_dir := root })
  else if args.backend = "google-cloud" then
    match args.gcp_project with
    | none =>
      .error (.usageError "--backend=google-cloud requires --gcp-project be set")
    | some project =>
      match args.gcp_bucket_alerts, args.gcp_bucket_schemas with
      | some ba, some bs =>
        .ok (.usdf { endpoint_url := project, packet_bucket := ba, schema_bucket := bs })
      | _, _ =>
        .error (.usageError
          "--backend=google-cloud requires --gcp-bucket-alerts and --gcp-bucket-schemas be set")
  else
    .error (.assertionError "only valid --backend choices are local-files and google-cloud")

/-- The concrete subclasses of `AlertDatabaseBackend` declared in
`alertdb/storage.py`, by class name, in source order. -/
def storageBackendClasses : List String :=
  ["FileBackend", "USDFObjectStorageBackend"]

/-- Splits a character list at every `/`, keeping empty segments, the way
POSIX path components are delimited. -/
def splitSlash : List Char → List (List Char)
  | [] => [[]]
  | c :: rest =>
    if c = '/' then [] :: splitSlash rest
    else
      match splitSlash rest with
      | [] => [[c]]
      | seg :: segs => (c :: seg) :: segs

/-- One step of POSIX path resolution over components: empty and `.`
segments are dropped, `..` removes the previously resolved segment, and
any other segment is appended. -/
def resolveStep (acc : List (List Char)) (seg : List Char) : List (List Char) :=
  if seg = [] ∨ seg = ['.'] then acc
  else if seg = ['.', '.'] then acc.dropLast
  else acc ++ [seg]

/-- POSIX resolution of a path string into its effective component list,
as the operating system resolves `.` and `..` when the file is opened. -/
def normComps (s : String) : List (List Char) :=
  (splitSlash s.data).foldl resolveStep []

/-- Association-list lookup used to describe pre-populated substrates. -/
def lookupTable (table : List (String × Bytes)) (key : String) : Option Bytes :=
  match table.find? (fun p => p.1 == key) with
  | some p => some p.2
  | none => none

/-- A filesystem pre-populated exactly with the given alert and schema
tables, each artifact stored at the path the file backend derives for its
ID; every other path is missing. -/
def fsOfTables (root : String) (alerts schemas : List (String × Bytes)) :
    FileSystem := fun path =>
  match lookupTable
      (alerts.map (fun p => (filePathAlert root p.1, p.2)) ++
        schemas.map (fun p => (filePathSchema root p.1, p.2))) path with
  | some b => FsEntry.file b
  | none => FsEntry.absent

/-- An object store pre-populated exactly with the given alert and schema
tables, each artifact stored in its bucket at the key the object-store
backend derives for its ID; every other key is missing, and any other
bucket fails with the substrate's missing-bucket error. -/
def storeOfTables (packetBucket schemaBucket : String)
    (alerts schemas : List (String × Bytes)) : ObjectStore := fun bucket key =>
  if bucket = packetBucket then
    match lookupTable (alerts.map (fun p => (alertObjectKey p.1, p.2))) key with
    | some b => ObjEntry.object b
    | none => ObjEntry.noSuchKey
  else if bucket = schemaBucket then
    match lookupTable (schemas.map (fun p => (schemaObjectKey p.1, p.2))) key with
    | some b => ObjEntry.object b
    | none => ObjEntry.noSuchKey
  else ObjEntry.storeError (SubstrateErr.other "NoSuchBucket")

/-- The logical alert mapping of the spec's cross-backend equivalence
example. -/
def exampleAlerts : List (String × Bytes) :=
  [("alert-id-1", strBytes "payload-1"),
   ("alert-id-2", strBytes "payload-2"),
   ("alert-id-3", strBytes "payload-3")]

/-- The logical schema mapping of the spec's cross-backend equivalence
example. -/
def exampleSchemas : List (String × Bytes) :=
  [("1", strBytes "schema-payload-1"),
   ("2", strBytes "schema-payload-2"),
   ("3", strBytes "schema-payload-3")]

/-- A file backend over a concrete root, for the equivalence example. -/
def exampleFileBackend : FileBackend := { root_dir := "/alert-root" }

/-- The example filesystem pre-populated with the logical mapping. -/
def exampleFs : FileSystem :=
  fsOfTables "/alert-root" exampleAlerts exampleSchemas

/-- An object-store backend over concrete buckets, for the equivalence
example. -/
def exampleUsdfBackend : USDFObjectStorageBackend :=
  { endpoint_url := "https://s3.example.test"
    packet_bucket := "alert-packets"
    schema_bucket := "alert-schemas" }

/-- The example object store pre-populated with the logical mapping. -/
def exampleStore : ObjectStore :=
  storeOfTables "alert-packets" "alert-schemas" exampleAlerts exampleSchemas

/-- A store holding an alert for ID `A` at the key the spec's claim names,
without the leading slash the code actually prepends; nothing else. -/
def unslashedKeyStore : ObjectStore := fun bucket key =>
  if bucket = "alert-packets" ∧ key = "alert_archive/v1/alerts/A.avro.gz" then
    ObjEntry.object (strBytes "stored-alert")
  else ObjEntry.noSuchKey

/-- A filesystem holding a file at the absolute path `/etc/secret` and an
artifact tree under `/data`, used to exercise path-escape behavior. -/
def escapeFs : FileSystem := fun path =>
  if path = "/etc/secret" then FsEntry.file (strBytes "outside-root")
  else if path = "/data/alerts/a1" then FsEntry.file (strBytes "inside-root")
  else FsEntry.absent

/-- A single-artifact filesystem used for concrete witnesses. -/
def witnessFs : FileSystem := fun path =>
  if path = "/data/alerts/a1" then FsEntry.file (strBytes "alert-bytes")
  else if path = "/data/schemas/s1" then FsEntry.file (strBytes "schema-bytes")
  else if path = "/data/alerts/locked" then FsEntry.ioError SubstrateErr.permissionDenied
  else FsEntry.absent

/-- A single-artifact object store used for concrete witnesses. -/
def witnessStore : ObjectStore := fun bucket key =>
  if bucket = "pb" ∧ key = alertObjectKey "a1" then
    ObjEntry.object (strBytes "alert-bytes")
  else if bucket = "sb" ∧ key = schemaObjectKey "s1" then
    ObjEntry.object (strBytes "schema-bytes")
  else if bucket = "pb" ∧ key = alertObjectKey "timeout" then
    ObjEntry.storeError SubstrateErr.networkTimeout
  else ObjEntry.noSuchKey

/-- A backend model whose alerts all resolve and whose schemas are all
missing, used as a concrete input for serving-layer witnesses. -/
def demoBackendModel : BackendModel :=
  { get_alert := fun _ => LookupResult.ok (strBytes "alert-bytes")
    get_schema := fun _ => LookupResult.notFound }

/-- The lookup outcome determined by what the filesystem holds at the
resolved path: the common shape of both `FileBackend` methods. -/
def entryResult (entry : FsEntry) : LookupResult :=
  match entry with
  | .file contents => .ok contents
  | .absent => .notFound
  | .ioError e => .substrateError e

/-- The lookup outcome determined by what the object store holds at the
resolved bucket and key: the common shape of both
`USDFObjectStorageBackend` methods. -/
def objResult (entry : ObjEntry) : LookupResult :=
  match entry with
  | .object contents => .ok contents
  | .noSuchKey => .notFound
  | .storeError e => .substrateError e

section Theorems

theorem get_alert_eq_entryResult (be : FileBackend) (fs : FileSystem)
    (alert_id : String) :
    be.get_alert fs alert_id = entryResult (fs (filePathAlert be.root_dir alert_id)) := by
  unfold FileBackend.get_alert FileBackend.get_alert_call entryResult
  cases fs (filePathAlert be.root_dir alert_id) <;> rfl

theorem get_schema_eq_entryResult (be : FileBackend) (fs : FileSystem)
    (schema_id : String) :
    be.get_schema fs schema_id = entryResult (fs (filePathSchema be.root_dir schema_id)) := by
  unfold FileBackend.get_schema FileBackend.get_schema_call entryResult
  cases fs (filePathSchema be.root_dir schema_id) <;> rfl

theorem usdf_get_alert_eq_objResult (be : USDFObjectStorageBackend)
    (store : ObjectStore) (alert_id : String) :
    be.get_alert store alert_id =
      objResult (store be.packet_bucket (alertObjectKey alert_id)) := by
  unfold USDFObjectStorageBackend.get_alert USDFObjectStorageBackend.get_alert_call objResult
  cases store be.packet_bucket (alertObjectKey alert_id) <;> rfl

theorem usdf_get_schema_eq_objResult (be : USDFObjectStorageBackend)
    (store : ObjectStore) (schema_id : String) :
    be.get_schema store schema_id =
      objResult (store be.schema_bucket (schemaObjectKey schema_id)) := by
  unfold USDFObjectStorageBackend.get_schema USDFObjectStorageBackend.get_schema_call objResult
  cases store be.schema_bucket (schemaObjectKey schema_id) <;> rfl

theorem entryResult_classify (entry : FsEntry) :
    (∀ b, entryResult entry = .ok b ↔ entry = .file b) ∧
      (entryResult entry = .notFound ↔ entry = .absent) ∧
      (∀ e, entryResult entry = .substrateError e ↔ entry = .ioError e) := by
  cases entry <;> simp [entryResult]

theorem objResult_classify (entry : ObjEntry) :
    (∀ b, objResult entry = .ok b ↔ entry = .object b) ∧
      (objResult entry = .notFound ↔ entry = .noSuchKey) ∧
      (∀ e, objResult entry = .substrateError e ↔ entry = .storeError e) := by
  cases entry <;> simp [objResult]

/-- C1: for every backend and every ID, a lookup returns the stored bytes
exactly when the substrate holds them at the resolved location, signals
NotFound exactly when the substrate reports the artifact missing
(`FileNotFoundError` for the filesystem backend, `NoSuchKey` for the
object-store backend), and propagates every other substrate error
unmapped; no failure is swallowed into an empty result, and no
non-missing substrate error is mapped to NotFound. -/
theorem C1_error_mapping_exact (fb : FileBackend) (ob : USDFObjectStorageBackend)
    (fs : FileSystem) (store : ObjectStore) (id : String) :
    ((∀ b, fb.get_alert fs id = .ok b ↔ fs (filePathAlert fb.root_dir id) = .file b) ∧
      (fb.get_alert fs id = .notFound ↔ fs (filePathAlert fb.root_dir id) = .absent) ∧
      (∀ e, fb.get_alert fs id = .substrateError e ↔
        fs (filePathAlert fb.root_dir id) = .ioError e)) ∧
    ((∀ b, fb.get_schema fs id = .ok b ↔ fs (filePathSchema fb.root_dir id) = .file b) ∧
      (fb.get_schema fs id = .notFound ↔ fs (filePathSchema fb.root_dir id) = .absent) ∧
      (∀ e, fb.get_schema fs id = .substrateError e ↔
        fs (filePathSchema fb.root_dir id) = .ioError e)) ∧
    ((∀ b, ob.get_alert store id = .ok b ↔
        store ob.packet_bucket (alertObjectKey id) = .object b) ∧
      (ob.get_alert store id = .notFound ↔
        store ob.packet_bucket (alertObjectKey id) = .noSuchKey) ∧
      (∀ e, ob.get_alert store id = .substrateError e ↔
        store ob.packet_bucket (alertObjectKey id) = .storeError e)) ∧
    ((∀ b, ob.get_schema store id = .ok b ↔
        store ob.schema_bucket (schemaObjectKey id) = .object b) ∧
      (ob.get_schema store id = .notFound ↔
        store ob.schema_bucket (schemaObjectKey id) = .noSuchKey) ∧
      (∀ e, ob.get_schema store id = .substrateError e ↔
        store ob.schema_bucket (schemaObjectKey id) = .storeError e)) := by
  refine ⟨?_, ?_, ?_, ?_⟩
  · rw [show ∀ x, fb.get_alert fs x = entryResult (fs (filePathAlert fb.root_dir x)) from
      fun x => get_alert_eq_entryResult fb fs x]
    exact entryResult_classify _
  · rw [show ∀ x, fb.get_schema fs x = entryResult (fs (filePathSchema fb.root_dir x)) from
      fun x => get_schema_eq_entryResult fb fs x]
    exact entryResult_classify _
  · rw [show ∀ x, ob.get_alert store x =
        objResult (store ob.packet_bucket (alertObjectKey x)) from
      fun x => usdf_get_alert_eq_objResult ob store x]
    exact objResult_classify _
  · rw [show ∀ x, ob.get_schema store x =
        objResult (store ob.schema_bucket (schemaObjectKey x)) from
      fun x => usdf_get_schema_eq_objResult ob store x]
    exact objResult_classify _

/-- C2 counterexample: the claim says alert `A` resolves to the key
`alert_archive/v1/alerts/A.avro.gz` with no leading slash prepended; the
code's f-string prepends one, so a store holding the artifact at the
unslashed key yields NotFound, and the computed key carries a leading
slash. -/
theorem C2_counterexample :
    USDFObjectStorageBackend.get_alert
        { endpoint_url := "e", packet_bucket := "alert-packets", schema_bucket := "sb" }
        unslashedKeyStore "A" = .notFound ∧
      alertObjectKey "A" ≠ "alert_archive/v1/alerts/A.avro.gz" ∧
      alertObjectKey "A" = "/alert_archive/v1/alerts/A.avro.gz" := by
  exact ⟨by decide, by decide, by decide⟩

/-- C2 (amended): the object-store backend resolves alert `A` to the key
`/alert_archive/v1/alerts/A.avro.gz` in the packet bucket and schema `S`
to `/alert_archive/v1/schemas/S.json` in the schema bucket — the
versioned archive path and format suffix as in the spec, but with a
leading slash prepended and passed verbatim to the object store. -/
theorem C2_amended_key_scheme (be : USDFObjectStorageBackend) (store : ObjectStore)
    (alert_id schema_id : String) :
    alertObjectKey alert_id = "/alert_archive/v1/alerts/" ++ alert_id ++ ".avro.gz" ∧
      schemaObjectKey schema_id = "/alert_archive/v1/schemas/" ++ schema_id ++ ".json" ∧
      be.get_alert store alert_id =
        objResult (store be.packet_bucket
          ("/alert_archive/v1/alerts/" ++ alert_id ++ ".avro.gz")) ∧
      be.get_schema store schema_id =
        objResult (store be.schema_bucket
          ("/alert_archive/v1/schemas/" ++ schema_id ++ ".json")) :=
  ⟨rfl, rfl, usdf_get_alert_eq_objResult be store alert_id,
    usdf_get_schema_eq_objResult be store schema_id⟩

/-- C4: the alert route returns 200 with the backend's bytes and the
octet-stream content type exactly when the backend succeeds, a 404
HTTPException exactly when the backend signals NotFound, and lets any
other backend failure through uncaught; the schema route behaves the same
with the schema-registry content type. -/
theorem C4_http_routes (bm : BackendModel) (alert_id schema_id : String) :
    ((∀ b, Server.get_alert bm alert_id =
        .response 200 b (some ALERT_CONTENT_TYPE) ↔ bm.get_alert alert_id = .ok b) ∧
      (Server.get_alert bm alert_id = .httpException 404 "alert not found" ↔
        bm.get_alert alert_id = .notFound) ∧
      (∀ e, Server.get_alert bm alert_id = .uncaught e ↔
        bm.get_alert alert_id = .substrateError e)) ∧
    ((∀ b, Server.get_schema bm schema_id =
        .response 200 b (some SCHEMA_CONTENT_TYPE) ↔ bm.get_schema schema_id = .ok b) ∧
      (Server.get_schema bm schema_id = .httpException 404 "schema not found" ↔
        bm.get_schema schema_id = .notFound) ∧
      (∀ e, Server.get_schema bm schema_id = .uncaught e ↔
        bm.get_schema schema_id = .substrateError e)) := by
  constructor
  · cases h : bm.get_alert alert_id <;> simp [Server.get_alert, h]
  · cases h : bm.get_schema schema_id <;> simp [Server.get_schema, h]

/-- C5: round-trip identity — for either backend, bytes stored in the
substrate at the key the backend derives for an ID are returned exactly,
with no modification, parsing, decompression, or validation. -/
theorem C5_round_trip (root alert_id schema_id : String) (B : Bytes)
    (fs : FileSystem) (be : USDFObjectStorageBackend) (store : ObjectStore) :
    (fs (filePathAlert root alert_id) = .file B →
        FileBackend.get_alert { root_dir := root } fs alert_id = .ok B) ∧
      (fs (filePathSchema root schema_id) = .file B →
        FileBackend.get_schema { root_dir := root } fs schema_id = .ok B) ∧
      (store be.packet_bucket (alertObjectKey alert_id) = .object B →
        be.get_alert store alert_id = .ok B) ∧
      (store be.schema_bucket (schemaObjectKey schema_id) = .object B →
        be.get_schema store schema_id = .ok B) := by
  refine ⟨fun h => ?_, fun h => ?_, fun h => ?_, fun h => ?_⟩
  · rw [get_alert_eq_entryResult, h]; rfl
  · rw [get_schema_eq_entryResult, h]; rfl
  · rw [usdf_get_alert_eq_objResult, h]; rfl
  · rw [usdf_get_schema_eq_objResult, h]; rfl

/-- C5 witness: the round-trip theorem applied to concrete stores holding
concrete bytes at the derived keys. -/
theorem C5_round_trip_witness :
    FileBackend.get_alert { root_dir := "/data" } witnessFs "a1" =
        .ok (strBytes "alert-bytes") ∧
      USDFObjectStorageBackend.get_alert
        { endpoint_url := "e", packet_bucket := "pb", schema_bucket := "sb" }
        witnessStore "a1" = .ok (strBytes "alert-bytes") :=
  ⟨(C5_round_trip "/data" "a1" "s1" (strBytes "alert-bytes") witnessFs
      { endpoint_url := "e", packet_bucket := "pb", schema_bucket := "sb" }
      witnessStore).1 (by decide),
    (C5_round_trip "/data" "a1" "s1" (strBytes "alert-bytes") witnessFs
      { endpoint_url := "e", packet_bucket := "pb", schema_bucket := "sb" }
      witnessStore).2.2.1 (by decide)⟩

/-- C8: the health route returns 200 with the fixed body `b"OK"` for
every backend state, and its outcome is independent of the backend — it
performs no backend call, so it succeeds even when the backend is
unreachable. -/
theorem C8_health_independent (bm bm₁ bm₂ : BackendModel) :
    Server.healthcheck bm = .response 200 (strBytes "OK") none ∧
      Server.healthcheck bm₁ = Server.healthcheck bm₂ :=
  ⟨rfl, rfl⟩

/-- C9: frame property — every lookup call, whatever its outcome, leaves
the backend (the filesystem backend's root directory; the object-store
backend's client handle and both bucket names) and the stored artifacts
exactly as they were. -/
theorem C9_lookups_frame (fb : FileBackend) (ob : USDFObjectStorageBackend)
    (fs : FileSystem) (store : ObjectStore) (id : String) :
    (fb.get_alert_call fs id).2 = (fb, fs) ∧
      (fb.get_schema_call fs id).2 = (fb, fs) ∧
      (ob.get_alert_call store id).2 = (ob, store) ∧
      (ob.get_schema_call store id).2 = (ob, store) := by
  refine ⟨?_, ?_, ?_, ?_⟩
  · unfold FileBackend.get_alert_call
    cases fs (filePathAlert fb.root_dir id) <;> rfl
  · unfold FileBackend.get_schema_call
    cases fs (filePathSchema fb.root_dir id) <;> rfl
  · unfold USDFObjectStorageBackend.get_alert_call
    cases store ob.packet_bucket (alertObjectKey id) <;> rfl
  · unfold USDFObjectStorageBackend.get_schema_call
    cases store ob.schema_bucket (schemaObjectKey id) <;> rfl

/-- C6 counterexample: `storage.py` declares exactly two concrete
subclasses of `AlertDatabaseBackend`, not the three (filesystem,
S3-compatible, GCS) the claim asserts — no GCS variant exists. -/
theorem C6_counterexample :
    storageBackendClasses.length ≠ 3 ∧ storageBackendClasses.length = 2 := by
  decide

/-- C6 (amended): exactly two concrete backend variants exist — the
filesystem backend and the boto3 S3-compatible object-store backend (the
CLI's `google-cloud` choice also constructs the latter) — and two
instances pre-populated with the spec's example ID-to-bytes mapping
return identical bytes for identical IDs and both signal NotFound for
`bogus`. -/
theorem C6_amended_two_backend_equivalence :
    storageBackendClasses.length = 2 ∧
      configureBackend
          { defaultArgs with backend := "google-cloud", gcp_project := some "proj" } =
        .ok (.usdf
          { endpoint_url := "proj"
            packet_bucket := "alert-packets"
            schema_bucket := "alert-schemas" }) ∧
      (["alert-id-1", "alert-id-2", "alert-id-3", "bogus"].all fun id =>
        exampleFileBackend.get_alert exampleFs id ==
          exampleUsdfBackend.get_alert exampleStore id) = true ∧
      (["1", "2", "3", "bogus"].all fun id =>
        exampleFileBackend.get_schema exampleFs id ==
          exampleUsdfBackend.get_schema exampleStore id) = true ∧
      exampleFileBackend.get_alert exampleFs "alert-id-1" = .ok (strBytes "payload-1") ∧
      exampleFileBackend.get_schema exampleFs "2" = .ok (strBytes "schema-payload-2") ∧
      exampleFileBackend.get_alert exampleFs "bogus" = .notFound ∧
      exampleUsdfBackend.get_alert exampleStore "bogus" = .notFound ∧
      exampleFileBackend.get_schema exampleFs "bogus" = .notFound ∧
      exampleUsdfBackend.get_schema exampleStore "bogus" = .notFound := by
  refine ⟨by decide, by rfl, by decide, by decide, by decide, by decide, by decide,
    by decide, by decide, by decide⟩

/-- C7 counterexample: the claim says the entry point selects from
`{local-files, s3-remote, google-cloud}`, but the argparse `choices`
tuple holds only `local-files` and `google-cloud`; `s3-remote` is
rejected as an invalid choice. -/
theorem C7_counterexample :
    "s3-remote" ∉ backendChoices ∧
      parseBackendChoice "s3-remote" = .error (.invalidChoice "s3-remote") := by
  exact ⟨by decide, by rfl⟩

/-- C7 (amended): the entry point selects exactly one backend from
`{local-files, google-cloud}`; `local-files` requires `--local-file-root`
and `google-cloud` requires `--gcp-project` plus the two bucket flags
(which default to `alert-packets`/`alert-schemas`); whenever a required
flag is missing it fails with a usage error before the server starts, and
no backend is constructed for any other choice. -/
theorem C7_amended_cli_validation (args : Args) :
    backendChoices = ["local-files", "google-cloud"] ∧
    (args.backend = "local-files" →
      ((args.local_file_root = none →
          configureBackend args =
            .error (.usageError "--backend=local-files requires --local-file-root be set")) ∧
        (∀ root, args.local_file_root = some root →
          configureBackend args = .ok (.file { root_dir := root })))) ∧
    (args.backend = "google-cloud" →
      ((args.gcp_project = none →
          configureBackend args =
            .error (.usageError "--backend=google-cloud requires --gcp-project be set")) ∧
        (∀ project, args.gcp_project = some project →
          (args.gcp_bucket_alerts = none ∨ args.gcp_bucket_schemas = none) →
          configureBackend args =
            .error (.usageError
              "--backend=google-cloud requires --gcp-bucket-alerts and --gcp-bucket-schemas be set")) ∧
        (∀ project ba bs, args.gcp_project = some project →
          args.gcp_bucket_alerts = some ba → args.gcp_bucket_schemas = some bs →
          configureBackend args =
            .ok (.usdf
              { endpoint_url := project
                packet_bucket := ba
                schema_bucket := bs })))) ∧
    (args.backend ≠ "local-files" → args.backend ≠ "google-cloud" →
      ∀ be, configureBackend args ≠ .ok be) := by
  refine ⟨rfl, fun hb => ⟨fun hr => ?_, fun root hr => ?_⟩,
    fun hb => ⟨fun hp => ?_, fun project hp hbkt => ?_, fun project ba bs hp hba hbs => ?_⟩,
    fun h1 h2 be => ?_⟩
  · unfold configureBackend; rw [hb, if_pos rfl, hr]
  · unfold configureBackend; rw [hb, if_pos rfl, hr]
  · unfold configureBackend; rw [hb, if_neg (by decide), if_pos rfl, hp]
  · unfold configureBackend
    rw [hb, if_neg (by decide), if_pos rfl, hp]
    rcases hbkt with h | h
    · rw [h]
    · rw [h]
      cases args.gcp_bucket_alerts <;> rfl
  · unfold configureBackend
    rw [hb, if_neg (by decide), if_pos rfl, hp, hba, hbs]
  · unfold configureBackend
    rw [if_neg h1, if_neg h2]
    exact fun h => Except.noConfusion h

/-- C7 amended witness: the theorem applied at the argparse defaults
(missing `--local-file-root`) and at a `google-cloud` selection missing
`--gcp-project`. -/
theorem C7_amended_cli_validation_witness :
    configureBackend defaultArgs =
        .error (.usageError "--backend=local-files requires --local-file-root be set") ∧
      configureBackend { defaultArgs with backend := "google-cloud" } =
        .error (.usageError "--backend=google-cloud requires --gcp-project be set") :=
  ⟨((C7_amended_cli_validation defaultArgs).2.1 rfl).1 rfl,
    ((C7_amended_cli_validation
      { defaultArgs with backend := "google-cloud" }).2.2.1 rfl).1 rfl⟩

theorem lastCharOf_append (l₁ l₂ : List Char) (h : l₂ ≠ []) :
    lastCharOf (l₁ ++ l₂) = lastCharOf l₂ := by
  induction l₁ with
  | nil => rfl
  | cons c l₁ ih =>
    rw [List.cons_append]
    have hne : l₁ ++ l₂ ≠ [] := by
      intro hc
      exact h (List.append_eq_nil.mp hc).2
    cases hl : l₁ ++ l₂ with
    | nil => exact absurd hl hne
    | cons d rest =>
      have hstep : lastCharOf (c :: d :: rest) = lastCharOf (d :: rest) := rfl
      rw [hstep, ← hl, ih]

theorem append_ne_empty (a b : String) (hb : b ≠ "") : a ++ b ≠ "" := by
  intro h
  apply hb
  have hd : a.data ++ b.data = [] := by
    have hc := congrArg String.data h
    simpa [String.data_append] using hc
  have hbd : b.data = [] := (List.append_eq_nil.mp hd).2
  exact String.ext (by rw [hbd])

theorem strEndsWithSlash_append (a b : String) (hb : b ≠ "") :
    strEndsWithSlash (a ++ b) = strEndsWithSlash b := by
  have hbd : b.data ≠ [] := by
    intro hc
    exact hb (String.ext (by rw [hc]))
  unfold strEndsWithSlash lastChar
  rw [String.data_append, lastCharOf_append a.data b.data hbd]

theorem posixJoin2_absolute (a b : String) (hb : strStartsWithSlash b = true) :
    posixJoin2 a b = b := by
  unfold posixJoin2
  rw [if_pos hb]

theorem posixJoin2_normal (a b : String) (ha : a ≠ "")
    (ha2 : strEndsWithSlash a = false) (hb : strStartsWithSlash b = false) :
    posixJoin2 a b = a ++ "/" ++ b := by
  unfold posixJoin2
  rw [if_neg (by simp [hb]), if_neg (by simp [ha, ha2])]

theorem posixJoin3_normal (root sub id : String)
    (hroot : root ≠ "") (hroot2 : strEndsWithSlash root = false)
    (hsub : strStartsWithSlash sub = false) (hsub2 : sub ≠ "")
    (hsub3 : strEndsWithSlash sub = false)
    (hid : strStartsWithSlash id = false) :
    posixJoin3 root sub id = root ++ "/" ++ sub ++ "/" ++ id := by
  unfold posixJoin3
  rw [posixJoin2_normal root sub hroot hroot2 hsub,
    posixJoin2_normal _ id (append_ne_empty _ sub hsub2)
      (by rw [strEndsWithSlash_append _ sub hsub2]; exact hsub3) hid]

theorem splitSlash_ne_nil (l : List Char) : splitSlash l ≠ [] := by
  cases l with
  | nil => simp [splitSlash]
  | cons c rest =>
    unfold splitSlash
    by_cases h : c = '/'
    · simp [h]
    · simp only [if_neg h]
      cases splitSlash rest <;> simp

theorem splitSlash_cons_slash (l : List Char) :
    splitSlash ('/' :: l) = [] :: splitSlash l := by
  rfl

theorem splitSlash_cons_ne (c : Char) (l : List Char) (h : ¬c = '/') :
    splitSlash (c :: l) =
      match splitSlash l with
      | [] => [[c]]
      | seg :: segs => (c :: seg) :: segs := by
  rw [splitSlash]
  rw [if_neg h]

theorem splitSlash_append_slash (xs ys : List Char) :
    splitSlash (xs ++ '/' :: ys) = splitSlash xs ++ splitSlash ys := by
  induction xs with
  | nil =>
    rw [List.nil_append, splitSlash_cons_slash]
    rfl
  | cons c xs ih =>
    rw [List.cons_append]
    by_cases h : c = '/'
    · subst h
      rw [splitSlash_cons_slash, splitSlash_cons_slash, ih, List.cons_append]
    · rw [splitSlash_cons_ne c _ h, splitSlash_cons_ne c xs h, ih]
      cases hs : splitSlash xs with
      | nil => exact absurd hs (splitSlash_ne_nil xs)
      | cons seg segs => rfl

theorem resolveStep_push (acc : List (List Char)) (seg : List Char)
    (h1 : ¬(seg = [] ∨ seg = ['.'])) (h2 : seg ≠ ['.', '.']) :
    resolveStep acc seg = acc ++ [seg] := by
  unfold resolveStep
  rw [if_neg h1, if_neg h2]

theorem resolveStep_pop (acc : List (List Char)) :
    resolveStep acc ['.', '.'] = acc.dropLast := by
  unfold resolveStep
  rw [if_neg (by decide), if_pos rfl]

theorem strStartsWithSlash_dotdot (rest : String) :
    strStartsWithSlash ("../" ++ rest) = false := by
  unfold strStartsWithSlash firstChar
  rw [String.data_append]
  rfl

theorem normComps_parent_escape (root sub rest : String)
    (hroot : root ≠ "") (hroot2 : strEndsWithSlash root = false)
    (hsub : strStartsWithSlash sub = false) (hsub2 : sub ≠ "")
    (hsub3 : strEndsWithSlash sub = false)
    (hsplit : splitSlash sub.data = [sub.data])
    (hseg : ¬(sub.data = [] ∨ sub.data = ['.'])) (hdd : sub.data ≠ ['.', '.']) :
    normComps (posixJoin3 root sub ("../" ++ rest)) = normComps (root ++ "/" ++ rest) := by
  rw [posixJoin3_normal root sub ("../" ++ rest) hroot hroot2 hsub hsub2 hsub3
    (strStartsWithSlash_dotdot rest)]
  unfold normComps
  have h1 : "/".data = ['/'] := rfl
  have h2 : "../".data = ['.', '.', '/'] := rfl
  have hdata : (root ++ "/" ++ sub ++ "/" ++ ("../" ++ rest)).data
      = root.data ++ '/' :: (sub.data ++ '/' :: (['.', '.'] ++ '/' :: rest.data)) := by
    simp [String.data_append, h1, h2]
  have hdata2 : (root ++ "/" ++ rest).data = root.data ++ '/' :: rest.data := by
    simp [String.data_append, h1]
  rw [hdata, hdata2, splitSlash_append_slash root.data, splitSlash_append_slash sub.data,
    splitSlash_append_slash (['.', '.'] : List Char) rest.data,
    splitSlash_append_slash root.data rest.data, hsplit]
  rw [show splitSlash (['.', '.'] : List Char) = [['.', '.']] from rfl]
  rw [List.foldl_append, List.foldl_append, List.foldl_append, List.foldl_append]
  simp only [List.foldl_cons, List.foldl_nil]
  rw [resolveStep_push _ _ hseg hdd, resolveStep_pop, List.dropLast_concat]

/-- C3 counterexample: with root `/data` and the absolute-path ID
`/etc/secret`, the filesystem backend's resolved path is the ID itself,
not `{root}/alerts/{id}`, and the lookup returns the file stored entirely
outside the root. -/
theorem C3_counterexample :
    filePathAlert "/data" "/etc/secret" = "/etc/secret" ∧
      filePathAlert "/data" "/etc/secret" ≠ "/data" ++ "/alerts/" ++ "/etc/secret" ∧
      FileBackend.get_alert { root_dir := "/data" } escapeFs "/etc/secret" =
        .ok (strBytes "outside-root") := by
  exact ⟨by decide, by decide, by decide⟩

/-- C3 (amended): for every root directory that is nonempty and does not
end with a separator, and every ID that does not begin with one —
otherwise `os.path.join` rewrites the path — the filesystem backend
resolves alert `A` to `{root}/alerts/A` and schema `S` to
`{root}/schemas/S`, opens the file in binary mode and returns its full
contents as bytes. -/
theorem C3_amended_file_paths (root id : String) (fs : FileSystem) (b : Bytes)
    (hroot : root ≠ "") (hroot2 : strEndsWithSlash root = false)
    (hid : strStartsWithSlash id = false) :
    filePathAlert root id = root ++ "/alerts/" ++ id ∧
      filePathSchema root id = root ++ "/schemas/" ++ id ∧
      (fs (root ++ "/alerts/" ++ id) = .file b →
        FileBackend.get_alert { root_dir := root } fs id = .ok b) ∧
      (fs (root ++ "/schemas/" ++ id) = .file b →
        FileBackend.get_schema { root_dir := root } fs id = .ok b) := by
  have hA : filePathAlert root id = root ++ "/alerts/" ++ id := by
    unfold filePathAlert
    rw [posixJoin3_normal root "alerts" id hroot hroot2 (by decide) (by decide)
      (by decide) hid]
    refine String.ext ?_
    have h1 : "/".data = ['/'] := rfl
    have h2 : "alerts".data = ['a', 'l', 'e', 'r', 't', 's'] := rfl
    have h3 : "/alerts/".data = ['/', 'a', 'l', 'e', 'r', 't', 's', '/'] := rfl
    simp [String.data_append, h1, h2, h3]
  have hS : filePathSchema root id = root ++ "/schemas/" ++ id := by
    unfold filePathSchema
    rw [posixJoin3_normal root "schemas" id hroot hroot2 (by decide) (by decide)
      (by decide) hid]
    refine String.ext ?_
    have h1 : "/".data = ['/'] := rfl
    have h2 : "schemas".data = ['s', 'c', 'h', 'e', 'm', 'a', 's'] := rfl
    have h3 : "/schemas/".data = ['/', 's', 'c', 'h', 'e', 'm', 'a', 's', '/'] := rfl
    simp [String.data_append, h1, h2, h3]
  refine ⟨hA, hS, fun h => ?_, fun h => ?_⟩
  · rw [get_alert_eq_entryResult]
    show entryResult (fs (filePathAlert root id)) = _
    rw [hA, h]
    rfl
  · rw [get_schema_eq_entryResult]
    show entryResult (fs (filePathSchema root id)) = _
    rw [hS, h]
    rfl

/-- C3 amended witness: the theorem applied at root `/data` with IDs `a1`
and `s1` on a filesystem holding concrete bytes at the resolved paths. -/
theorem C3_amended_file_paths_witness :
    filePathAlert "/data" "a1" = "/data" ++ "/alerts/" ++ "a1" ∧
      FileBackend.get_schema { root_dir := "/data" } witnessFs "s1" =
        .ok (strBytes "schema-bytes") :=
  ⟨(C3_amended_file_paths "/data" "a1" witnessFs (strBytes "alert-bytes")
      (by decide) (by decide) (by decide)).1,
    (C3_amended_file_paths "/data" "s1" witnessFs (strBytes "schema-bytes")
      (by decide) (by decide) (by decide)).2.2.2 (by decide)⟩

/-- C10: for every ID that is an absolute path string, the filesystem
backend's resolved path is the ID itself — `os.path.join` discards the
root and the `alerts`/`schemas` component — so the lookup reads entirely
outside the configured root; and an ID beginning with a parent-directory
component resolves (after POSIX `..` resolution) to a path outside
`{root}/alerts` and `{root}/schemas`, namely as if the subdirectory were
absent. -/
theorem C10_path_escape (root id rest : String) (fs : FileSystem) :
    (strStartsWithSlash id = true →
      (filePathAlert root id = id ∧ filePathSchema root id = id ∧
        FileBackend.get_alert { root_dir := root } fs id = entryResult (fs id) ∧
        FileBackend.get_schema { root_dir := root } fs id = entryResult (fs id))) ∧
    (root ≠ "" → strEndsWithSlash root = false →
      (normComps (filePathAlert root ("../" ++ rest)) = normComps (root ++ "/" ++ rest) ∧
        normComps (filePathSchema root ("../" ++ rest)) =
          normComps (root ++ "/" ++ rest))) := by
  constructor
  · intro habs
    have hA : filePathAlert root id = id := by
      unfold filePathAlert posixJoin3
      rw [posixJoin2_absolute _ id habs]
    have hS : filePathSchema root id = id := by
      unfold filePathSchema posixJoin3
      rw [posixJoin2_absolute _ id habs]
    refine ⟨hA, hS, ?_, ?_⟩
    · rw [get_alert_eq_entryResult]
      show entryResult (fs (filePathAlert root id)) = _
      rw [hA]
    · rw [get_schema_eq_entryResult]
      show entryResult (fs (filePathSchema root id)) = _
      rw [hS]
  · intro hroot hroot2
    exact ⟨normComps_parent_escape root "alerts" rest hroot hroot2 (by decide)
        (by decide) (by decide) (by decide) (by decide) (by decide),
      normComps_parent_escape root "schemas" rest hroot hroot2 (by decide)
        (by decide) (by decide) (by decide) (by decide) (by decide)⟩

/-- C10 witness: the theorem applied at root `/data` with the absolute ID
`/etc/secret` and the parent-directory ID `../escaped`. -/
theorem C10_path_escape_witness :
    filePathAlert "/data" "/etc/secret" = "/etc/secret" ∧
      normComps (filePathAlert "/data" ("../" ++ "escaped")) =
        normComps ("/data" ++ "/" ++ "escaped") :=
  ⟨((C10_path_escape "/data" "/etc/secret" "escaped" escapeFs).1 (by decide)).1,
    ((C10_path_escape "/data" "/etc/secret" "escaped" escapeFs).2 (by decide)
      (by decide)).1⟩

end Theorems

end AlertDB
